import Mathlib

/-!
Verification of the tile-pyramid generator in `scripts/generate_tiles.py`
(class `ReforgerTileGenerator`).

The Python source is shallowly embedded below:

* machine integers become `ℕ` (all quantities involved are nonnegative);
* Python's exact float expressions `source_width / map_size_m` and
  `int(...)` / `round(...)` are idealised over `ℚ` (exact real arithmetic),
  and `math.ceil(math.log2(...))` over `ℝ`;
* raster images become functions `ℕ → ℕ → ℕ` (pixel coordinates to an
  abstract colour value, `0` being the blank/black default of a fresh
  `Image.new('RGB', ...)` canvas);
* the external imaging library (PIL) is not part of the repository: its
  rejection of inverted crop boxes follows Pillow's published behaviour,
  and its degenerate zero-area crop/resample path is modelled from the
  spec's external-capability contract (a per-tile crop/resample failure
  skips the tile and the run continues);
* fallible paths (missing source file, `log2(0)`) become `Except`.
-/

namespace ReforgerTileGenerator

/- ### Grid arithmetic (from `__init__`, `_calculate_max_zoom`) -/

/-- From `__init__`: `self.map_size_m = map_size_km * 1000`. -/
def map_size_m (map_size_km : ℕ) : ℕ := map_size_km * 1000

/-- From `__init__`: `self.tiles_per_axis = self.map_size_m // meters_per_tile`
(Python floor division on nonnegative integers is `Nat` division). -/
def tiles_per_axis (msm mpt : ℕ) : ℕ := msm / mpt

/-- From `_calculate_max_zoom`: `math.ceil(math.log2(self.tiles_per_axis))`,
idealised over exact reals; `Nat.clog 2` is exactly the ceiling of the
base-2 logarithm on positive naturals (proved against `Real.logb` in
theorem `C7_max_zoom_is_ceil_log2` below). -/
def calculate_max_zoom (tpa : ℕ) : ℕ := Nat.clog 2 tpa

/-- From `_generate_base_tiles`:
`pixels_per_meter = source_width / self.map_size_m` (exact division in ℚ) and
`tile_source_size = int(self.meters_per_tile * pixels_per_meter)`;
Python's `int()` truncates toward zero, which on this nonnegative value is
the floor. -/
def tile_source_size (source_width msm mpt : ℕ) : ℕ :=
  (⌊(mpt : ℚ) * ((source_width : ℚ) / (msm : ℚ))⌋).toNat

/-- Modelled from the spec: the spec's formula
`tile_source_size_px = round(meters_per_tile * pixels_per_meter)` — rounding
to the nearest integer — written out for comparison with the source's
truncating `tile_source_size`. -/
def tile_source_size_spec (source_width msm mpt : ℕ) : ℤ :=
  round ((mpt : ℚ) * ((source_width : ℚ) / (msm : ℚ)))

/- ### Zoom levels and metadata (from `_generate_zoom_level`,
`_generate_metadata`, `generate_all_tiles`) -/

/-- From `_generate_zoom_level`:
`tiles_this_level = self.tiles_per_axis // (2 ** zoom)`. -/
def tiles_this_level (tpa zoom : ℕ) : ℕ := tpa / 2 ^ zoom

/-- From `_generate_zoom_level`: the number of tiles the generator saves at a
zoom level `z ≥ 1`.  The function returns early (saving nothing) when
`tiles_this_level < 1`; otherwise the two nested `range(tiles_this_level)`
loops save one tile per grid cell. -/
def zoom_level_tile_count (tpa zoom : ℕ) : ℕ :=
  if tiles_this_level tpa zoom < 1 then 0
  else tiles_this_level tpa zoom * tiles_this_level tpa zoom

/-- From `_generate_metadata`:
`tiles_at_zoom = max(1, self.tiles_per_axis // (2 ** zoom))` — the
`tilesPerAxis` field of the zoom-level entry. -/
def metadata_tiles_at (tpa zoom : ℕ) : ℕ := max 1 (tpa / 2 ^ zoom)

/-- From `_generate_metadata`: the `totalTiles` field,
`tiles_at_zoom * tiles_at_zoom`. -/
def metadata_total_at (tpa zoom : ℕ) : ℕ :=
  metadata_tiles_at tpa zoom * metadata_tiles_at tpa zoom

/-- From `generate_all_tiles`: the pyramid loop
`for zoom in range(1, self.max_zoom + 1)`. -/
def pyramid_zoom_list (tpa : ℕ) : List ℕ :=
  List.range' 1 (calculate_max_zoom tpa)

/-- From `_generate_metadata`: the `zoomLevels` array, one entry
`(zoom, tilesPerAxis, totalTiles, metersPerTile)` per
`zoom in range(self.max_zoom + 1)`. -/
def metadata_zoom_levels (tpa mpt : ℕ) : List (ℕ × ℕ × ℕ × ℕ) :=
  (List.range (calculate_max_zoom tpa + 1)).map
    (fun zoom => (zoom, metadata_tiles_at tpa zoom, metadata_total_at tpa zoom, mpt * 2 ^ zoom))

/- ### Constructor (from `__init__`) -/

/-- State built by `__init__`: the constructor arguments plus the derived
`tiles_per_axis` and `max_zoom` fields. -/
structure GenState where
  map_size_km : ℕ
  tile_size_px : ℕ
  meters_per_tile : ℕ
  tpa : ℕ
  max_zoom : ℕ
deriving DecidableEq

/-- From `__init__`: computes `tiles_per_axis = map_size_m // meters_per_tile`
and then `max_zoom = math.ceil(math.log2(tiles_per_axis))`.  Python raises
`ZeroDivisionError` when `meters_per_tile = 0` and `math.log2(0)` raises
`ValueError: math domain error` when `tiles_per_axis = 0`; both fallible
paths are embedded as `Except.error`. -/
def init (map_size_km tile_size_px meters_per_tile : ℕ) : Except String GenState :=
  if meters_per_tile = 0 then Except.error "division by zero"
  else if tiles_per_axis (map_size_m map_size_km) meters_per_tile = 0 then
    Except.error "math domain error"
  else Except.ok ⟨map_size_km, tile_size_px, meters_per_tile,
    tiles_per_axis (map_size_m map_size_km) meters_per_tile,
    calculate_max_zoom (tiles_per_axis (map_size_m map_size_km) meters_per_tile)⟩

/- ### Base-tile crop windows (from `_generate_base_tiles`) -/

/-- A PIL crop box `(left, upper, right, lower)` in source-pixel space. -/
structure CropBox where
  left : ℕ
  top : ℕ
  right : ℕ
  bottom : ℕ
deriving DecidableEq

/-- From `_generate_base_tiles`: `source_x = tile_x * tile_source_size`,
`source_y = tile_y * tile_source_size` and
`crop_box = (max(0, source_x), max(0, source_y),
min(source_x + tile_source_size, source_width),
min(source_y + tile_source_size, source_height))`. -/
def crop_box (w h s x y : ℕ) : CropBox :=
  ⟨max 0 (x * s), max 0 (y * s), min (x * s + s) w, min (y * s + s) h⟩

/-- Modelled from the spec: the window
`[x*ts, y*ts, (x+1)*ts, (y+1)*ts]` clamped coordinate-wise to
`[0, source_width] × [0, source_height]` (the lower clamp at 0 is trivial
over `ℕ`). -/
def spec_window (w h s x y : ℕ) : CropBox :=
  ⟨min (x * s) w, min (y * s) h, min ((x + 1) * s) w, min ((y + 1) * s) h⟩

/-- A crop box has positive area when both edges are strictly ordered. -/
def posArea (b : CropBox) : Prop := b.left < b.right ∧ b.top < b.bottom

instance (b : CropBox) : Decidable (posArea b) := by
  unfold posArea
  infer_instance

/-- Whether the base-tile loop body saves a tile for cell `(x, y)`.  From the
source: the body crops `crop_box`, resizes the crop to
`tile_size_px × tile_size_px` and saves it; any exception is caught, logged
and the loop continues with no tile saved.  PIL's `Image.crop` raises
`ValueError` on an inverted box (`right < left` or `lower < upper`), giving
the first branch; a non-inverted box with positive area crops and resamples
successfully, giving the second; the leftover degenerate zero-area windows
are modelled from the spec's per-tile failure contract (crop/resample
failure skips the tile). -/
def emits_tile (w h s x y : ℕ) : Bool :=
  if (crop_box w h s x y).right < (crop_box w h s x y).left ∨
      (crop_box w h s x y).bottom < (crop_box w h s x y).top then false
  else if (crop_box w h s x y).left < (crop_box w h s x y).right ∧
      (crop_box w h s x y).top < (crop_box w h s x y).bottom then true
  else false

/- ### Image model (from `_generate_zoom_level`) -/

/-- Raster images: pixel coordinates to an abstract colour value. -/
def Img : Type := ℕ → ℕ → ℕ

/-- From `Image.new('RGB', ...)`: a fresh canvas is blank (black, colour 0). -/
def blankImg : Img := fun _ _ => 0

/-- A solid one-colour raster. -/
def solidImg (c : ℕ) : Img := fun _ _ => c

/-- Modelled from the spec: the external high-quality half-size downsample
(`src_tile.resize((half_size, half_size), LANCZOS)` is PIL library code,
not repository code).  Point sampling is used as the embedding; the claims
below use only that a downsample maps a constant raster to the same
constant. -/
def resizeHalf (t : Img) : Img := fun i j => t (2 * i) (2 * j)

/-- From `combined_img.paste(src_tile, (paste_x, paste_y))`: pixels inside
the `sz × sz` window anchored at `(px, py)` come from the pasted image,
all others keep the canvas value. -/
def pasteImg (canvas img : Img) (px py sz : ℕ) : Img := fun i j =>
  if px ≤ i ∧ i < px + sz ∧ py ≤ j ∧ j < py + sz then img (i - px) (j - py)
  else canvas i j

/-- From `_generate_zoom_level`: the quadrant loop order
`for dx in range(2): for dy in range(2)`. -/
def quadrantOrder : List (ℕ × ℕ) := [(0, 0), (0, 1), (1, 0), (1, 1)]

/-- One iteration of the quadrant loop in `_generate_zoom_level`: if the
source tile `(2x+dx, 2y+dy)` of the previous level exists it is downsampled
to `half_size = tile_size_px // 2` and pasted at
`(dx * half_size, dy * half_size)`; otherwise (`os.path.exists` false) the
canvas is left untouched — there is no error path. -/
def pasteQuadrant (n : ℕ) (src : ℕ → ℕ → Option Img) (x y : ℕ)
    (canvas : Img) (d : ℕ × ℕ) : Img :=
  match src (2 * x + d.1) (2 * y + d.2) with
  | none => canvas
  | some t => pasteImg canvas (resizeHalf t) (d.1 * (n / 2)) (d.2 * (n / 2)) (n / 2)

/-- From the cell body of `_generate_zoom_level`: start from a blank
`tile_size_px` canvas and run the quadrant loop. -/
def composeZoomTile (n : ℕ) (src : ℕ → ℕ → Option Img) (x y : ℕ) : Img :=
  quadrantOrder.foldl (pasteQuadrant n src x y) blankImg

/-- Example previous-level tile set for the missing-quadrant scenario: the
2×2 block has tiles at `(0,0)`, `(0,1)`, `(1,0)` and nothing at `(1,1)`. -/
def threeQuadrantSrc : ℕ → ℕ → Option Img := fun a b =>
  if a ≤ 1 ∧ b ≤ 1 ∧ ¬(a = 1 ∧ b = 1) then some (solidImg 9) else none

/- ### Whole-run model (from `generate_all_tiles` and `main`) -/

/-- Output-directory writes performed by the generator. -/
inductive Write where
  | tile (zoom x y : ℕ)
  | metadataFile
  | leafletConfigFile
deriving DecidableEq

/-- From the `_generate_base_tiles` loops: one level-0 tile write per grid
cell whose crop-and-resample succeeds (see `emits_tile`). -/
def base_tile_writes (w h : ℕ) (g : GenState) : List Write :=
  (List.range g.tpa).flatMap (fun x =>
    ((List.range g.tpa).filter (fun y =>
      emits_tile w h
        (tile_source_size w (map_size_m g.map_size_km) g.meters_per_tile) x y)).map
      (fun y => Write.tile 0 x y))

/-- From the `_generate_zoom_level` loops: the tile writes of one pyramid
level (none when `tiles_this_level < 1`, the early return). -/
def zoom_level_writes (g : GenState) (zoom : ℕ) : List Write :=
  if tiles_this_level g.tpa zoom < 1 then []
  else (List.range (tiles_this_level g.tpa zoom)).flatMap (fun x =>
    (List.range (tiles_this_level g.tpa zoom)).map (fun y => Write.tile zoom x y))

/-- From `_generate_base_tiles`: the base phase.  A missing source path
raises `FileNotFoundError` (and an undecodable image re-raises from the
`except` block) before any tile write; `none` models both fatal cases. -/
def generate_base_tiles_run (source : Option (ℕ × ℕ)) (g : GenState) :
    Except String (List Write) :=
  match source with
  | none => Except.error "Source image not found"
  | some (w, h) => Except.ok (base_tile_writes w h g)

/-- From `generate_all_tiles`: base phase, then pyramid levels
`1 .. max_zoom`, then the metadata file, then the Leaflet config file; an
exception in the base phase propagates before any later phase runs.
Returns the writes performed and the outcome. -/
def generate_all_tiles_run (source : Option (ℕ × ℕ)) (g : GenState) :
    List Write × Except String Unit :=
  match generate_base_tiles_run source g with
  | Except.error e => ([], Except.error e)
  | Except.ok ws =>
      (ws ++ (pyramid_zoom_list g.tpa).flatMap (zoom_level_writes g) ++
        [Write.metadataFile, Write.leafletConfigFile], Except.ok ())

/-- From `main`: validates the source path first (printing and returning
exit code 1 when it is missing) and otherwise runs the generator, turning
any exception into exit code 1.  Result: (writes, exit code). -/
def main_run (source : Option (ℕ × ℕ)) (g : GenState) : List Write × ℕ :=
  match source with
  | none => ([], 1)
  | some img =>
      match generate_all_tiles_run (some img) g with
      | (ws, Except.ok _) => (ws, 0)
      | (ws, Except.error _) => (ws, 1)

/- ### Helper lemmas (shared) -/

/-- Helper: `Nat.clog 2 130 = 8` (`Nat.clog` is well-founded recursive, so
this is proved by the two power bounds rather than by evaluation). -/
theorem clog2_130 : Nat.clog 2 130 = 8 := by
  apply le_antisymm
  · exact (Nat.le_pow_iff_clog_le (by norm_num)).1 (by norm_num)
  · exact (Nat.pow_lt_iff_lt_clog (by norm_num)).1 (by norm_num)

/-- Helper: the source's truncating `int()` agrees with natural floor
division. -/
theorem tile_source_size_eq_div (w msm mpt : ℕ) :
    tile_source_size w msm mpt = mpt * w / msm := by
  unfold tile_source_size
  rw [mul_div_assoc']
  rw [show ((mpt : ℚ) * (w : ℚ)) = ((mpt * w : ℕ) : ℚ) by push_cast; ring]
  rw [Int.floor_toNat]
  exact Nat.floor_div_eq_div (mpt * w) msm

/-- Helper: for positive `tpa`, being strictly below `2 ^ max_zoom` is the
same as not being a power of two (`tpa ≤ 2 ^ clog` always holds, and
equality is attained exactly at powers of two). -/
theorem lt_pow_clog_iff_not_pow (tpa : ℕ) :
    tpa < 2 ^ calculate_max_zoom tpa ↔ ∀ k, tpa ≠ 2 ^ k := by
  constructor
  · intro hlt k hk
    have hclog : calculate_max_zoom tpa = k := by
      rw [hk, calculate_max_zoom, Nat.clog_pow 2 k (by norm_num)]
    rw [hclog, ← hk] at hlt
    exact lt_irrefl _ hlt
  · intro hne
    exact lt_of_le_of_ne (Nat.le_pow_clog (by norm_num) tpa) (hne _)

/-- Helper: a quadrant-loop iteration leaves every pixel outside its paste
window unchanged, whether or not the source tile exists. -/
theorem pasteQuadrant_outside (n x y : ℕ) (src : ℕ → ℕ → Option Img)
    (c : Img) (dx dy i j : ℕ)
    (hout : ¬ (dx * (n / 2) ≤ i ∧ i < dx * (n / 2) + n / 2 ∧
      dy * (n / 2) ≤ j ∧ j < dy * (n / 2) + n / 2)) :
    pasteQuadrant n src x y c (dx, dy) i j = c i j := by
  unfold pasteQuadrant pasteImg
  dsimp only
  rcases src (2 * x + dx) (2 * y + dy) with _ | t
  · rfl
  · dsimp only
    rw [if_neg hout]

/-- Helper: inside its paste window, a quadrant-loop iteration writes the
downsampled source tile when it exists and keeps the canvas otherwise. -/
theorem pasteQuadrant_inside (n x y : ℕ) (src : ℕ → ℕ → Option Img)
    (c : Img) (dx dy i j : ℕ)
    (hin : dx * (n / 2) ≤ i ∧ i < dx * (n / 2) + n / 2 ∧
      dy * (n / 2) ≤ j ∧ j < dy * (n / 2) + n / 2) :
    pasteQuadrant n src x y c (dx, dy) i j =
      (match src (2 * x + dx) (2 * y + dy) with
        | none => c i j
        | some t => resizeHalf t (i - dx * (n / 2)) (j - dy * (n / 2))) := by
  unfold pasteQuadrant pasteImg
  dsimp only
  rcases src (2 * x + dx) (2 * y + dy) with _ | t
  · rfl
  · dsimp only
    rw [if_pos hin]

/-- Helper: pixel evaluation of a composed pyramid tile.  A pixel of
quadrant `(dx, dy)` shows the downsampled source tile `(2x+dx, 2y+dy)` when
it exists and the blank canvas (colour 0) when it does not. -/
theorem composeZoomTile_pixel (n x y : ℕ) (src : ℕ → ℕ → Option Img)
    (dx dy : ℕ) (hdx : dx < 2) (hdy : dy < 2) (i j : ℕ)
    (hi : dx * (n / 2) ≤ i ∧ i < dx * (n / 2) + n / 2)
    (hj : dy * (n / 2) ≤ j ∧ j < dy * (n / 2) + n / 2) :
    composeZoomTile n src x y i j =
      (match src (2 * x + dx) (2 * y + dy) with
        | none => 0
        | some t => resizeHalf t (i - dx * (n / 2)) (j - dy * (n / 2))) := by
  have hfold : composeZoomTile n src x y =
      pasteQuadrant n src x y (pasteQuadrant n src x y (pasteQuadrant n src x y
        (pasteQuadrant n src x y blankImg (0, 0)) (0, 1)) (1, 0)) (1, 1) := rfl
  rw [hfold]
  interval_cases dx <;> interval_cases dy
  · rw [pasteQuadrant_outside n x y src _ 1 1 i j (by omega),
      pasteQuadrant_outside n x y src _ 1 0 i j (by omega),
      pasteQuadrant_outside n x y src _ 0 1 i j (by omega),
      pasteQuadrant_inside n x y src _ 0 0 i j (by omega)]
    rcases src (2 * x + 0) (2 * y + 0) with _ | t
    · rfl
    · rfl
  · rw [pasteQuadrant_outside n x y src _ 1 1 i j (by omega),
      pasteQuadrant_outside n x y src _ 1 0 i j (by omega),
      pasteQuadrant_inside n x y src _ 0 1 i j (by omega)]
    rcases src (2 * x + 0) (2 * y + 1) with _ | t
    · rw [pasteQuadrant_outside n x y src _ 0 0 i j (by omega)]
      rfl
    · rfl
  · rw [pasteQuadrant_outside n x y src _ 1 1 i j (by omega),
      pasteQuadrant_inside n x y src _ 1 0 i j (by omega)]
    rcases src (2 * x + 1) (2 * y + 0) with _ | t
    · rw [pasteQuadrant_outside n x y src _ 0 1 i j (by omega),
        pasteQuadrant_outside n x y src _ 0 0 i j (by omega)]
      rfl
    · rfl
  · rw [pasteQuadrant_inside n x y src _ 1 1 i j (by omega)]
    rcases src (2 * x + 1) (2 * y + 1) with _ | t
    · rw [pasteQuadrant_outside n x y src _ 1 0 i j (by omega),
        pasteQuadrant_outside n x y src _ 0 1 i j (by omega),
        pasteQuadrant_outside n x y src _ 0 0 i j (by omega)]
      rfl
    · rfl

/- ### C1 -/

/-- C1 counterexample: in the reference scenario (`tiles_per_axis = 130`,
`max_zoom = 8`) the generator emits zero tiles at zoom 8, not the single
clamped tile the claim asserts: `130 // 2^8 = 0 < 1` triggers the early
`return` in `_generate_zoom_level`, so no tile is saved at the top zoom. -/
theorem C1_top_zoom_counterexample :
    zoom_level_tile_count 130 8 = 0 ∧ zoom_level_tile_count 130 8 ≠ 1 := by
  constructor <;> decide

/-- C1 (amended): in the reference scenario (`tiles_per_axis = 130`,
`max_zoom = 8`) the generator emits zero tiles at zoom 8 (the early return
when `tiles_this_level < 1`); the single terminal tile is instead emitted at
zoom 7 (`130 // 2^7 = 1`), and only the metadata emitter clamps the zoom-8
count to 1 via `max(1, ...)`. -/
theorem C1_top_zoom_amended :
    calculate_max_zoom 130 = 8 ∧
    zoom_level_tile_count 130 8 = 0 ∧
    zoom_level_tile_count 130 7 = 1 ∧
    metadata_tiles_at 130 8 = 1 := by
  refine ⟨clog2_130, by decide, by decide, by decide⟩

/- ### C2 -/

/-- C2 counterexample: with `source_width = 13999`, `map_size_m = 13000`,
`meters_per_tile = 100` the exact crop-window edge is
`100 * 13999 / 13000 = 107.6884…`; the source's `int()` truncation yields
107 while the spec's `round(...)` yields 108, so the code does not round to
the nearest integer. -/
theorem C2_round_counterexample :
    tile_source_size 13999 13000 100 = 107 ∧
    tile_source_size_spec 13999 13000 100 = 108 ∧
    (tile_source_size 13999 13000 100 : ℤ) ≠ tile_source_size_spec 13999 13000 100 := by
  refine ⟨?_, ?_, ?_⟩
  · rw [tile_source_size_eq_div]
  · unfold tile_source_size_spec
    norm_num [round_eq]
  · rw [tile_source_size_eq_div]
    unfold tile_source_size_spec
    norm_num [round_eq]

/-- C2 (amended): the base tiler computes the crop-window edge by truncation,
`tile_source_size_px = int(meters_per_tile * pixels_per_meter)`, which on the
nonnegative operands equals the floor `meters_per_tile * source_width //
map_size_m`, for every source width and parameter choice. -/
theorem C2_truncating_size (w msm mpt : ℕ) (h : 0 < msm) :
    tile_source_size w msm mpt = mpt * w / msm ∧
    ((tile_source_size w msm mpt : ℚ)) ≤ (mpt : ℚ) * ((w : ℚ) / (msm : ℚ)) ∧
    (mpt : ℚ) * ((w : ℚ) / (msm : ℚ)) < (tile_source_size w msm mpt : ℚ) + 1 := by
  have hq : (0 : ℚ) ≤ (mpt : ℚ) * ((w : ℚ) / (msm : ℚ)) := by positivity
  have hfl : tile_source_size w msm mpt = ⌊(mpt : ℚ) * ((w : ℚ) / (msm : ℚ))⌋₊ := by
    unfold tile_source_size
    rw [Int.floor_toNat]
  refine ⟨tile_source_size_eq_div w msm mpt, ?_, ?_⟩
  · rw [hfl]
    exact Nat.floor_le hq
  · rw [hfl]
    exact Nat.lt_floor_add_one _

/-- C2 witness: the amended theorem at the reference scenario with a
13000 × 13000 px source, where the window edge is exactly 100 px. -/
theorem C2_truncating_size_witness :
    0 < 13000 ∧
    (tile_source_size 13000 13000 100 = 100 * 13000 / 13000 ∧
      ((tile_source_size 13000 13000 100 : ℚ)) ≤ (100 : ℚ) * ((13000 : ℚ) / (13000 : ℚ)) ∧
      (100 : ℚ) * ((13000 : ℚ) / (13000 : ℚ)) < (tile_source_size 13000 13000 100 : ℚ) + 1) :=
  ⟨by norm_num, C2_truncating_size 13000 13000 100 (by norm_num)⟩

/- ### C6 -/

/-- C6: for every `tiles_per_axis ≥ 1` the pyramid loop
`range(1, max_zoom + 1)` performs exactly `max_zoom` iterations,
`tiles_this_level = tiles_per_axis // 2^z` strictly decreases over the
iterations, and it has reached `≤ 1` by step `max_zoom =
ceil(log2 tiles_per_axis)`. -/
theorem C6_pyramid_terminates (tpa : ℕ) (h : 1 ≤ tpa) :
    (pyramid_zoom_list tpa).length = calculate_max_zoom tpa ∧
    (∀ z ∈ pyramid_zoom_list tpa,
      tiles_this_level tpa z < tiles_this_level tpa (z - 1)) ∧
    tiles_this_level tpa (calculate_max_zoom tpa) ≤ 1 := by
  refine ⟨by simp [pyramid_zoom_list], ?_, ?_⟩
  · intro z hz
    rw [pyramid_zoom_list, List.mem_range'_1] at hz
    obtain ⟨hz1, hz2⟩ := hz
    have htpa2 : 2 ≤ tpa := by
      by_contra hlt
      have htpa1 : tpa = 1 := by omega
      subst htpa1
      have h0 : calculate_max_zoom 1 = 0 := Nat.clog_one_right 2
      omega
    have hle : 2 ^ (z - 1) ≤ 2 ^ (calculate_max_zoom tpa - 1) :=
      Nat.pow_le_pow_right (by norm_num) (by omega)
    have hlt : 2 ^ (calculate_max_zoom tpa - 1) < tpa :=
      Nat.pow_pred_clog_lt_self (by norm_num) htpa2
    have hpos : 1 ≤ tiles_this_level tpa (z - 1) := by
      rw [tiles_this_level]
      exact Nat.one_le_div_iff (Nat.pos_pow_of_pos _ (by norm_num)) |>.2
        (le_of_lt (lt_of_le_of_lt hle hlt))
    have hsplit : tiles_this_level tpa z = tiles_this_level tpa (z - 1) / 2 := by
      rw [tiles_this_level, tiles_this_level, Nat.div_div_eq_div_mul, ← pow_succ]
      congr 2
      omega
    rw [hsplit]
    exact Nat.div_lt_self (by omega) (by norm_num)
  · have hle : tpa ≤ 2 ^ calculate_max_zoom tpa := Nat.le_pow_clog (by norm_num) tpa
    have := Nat.div_le_div_right (c := 2 ^ calculate_max_zoom tpa) hle
    rw [Nat.div_self (Nat.pos_pow_of_pos _ (by norm_num))] at this
    exact this

/-- C6 witness: the theorem instantiated at the reference scenario
`tiles_per_axis = 130`. -/
theorem C6_pyramid_terminates_witness :
    1 ≤ 130 ∧
    ((pyramid_zoom_list 130).length = calculate_max_zoom 130 ∧
      (∀ z ∈ pyramid_zoom_list 130,
        tiles_this_level 130 z < tiles_this_level 130 (z - 1)) ∧
      tiles_this_level 130 (calculate_max_zoom 130) ≤ 1) :=
  ⟨by norm_num, C6_pyramid_terminates 130 (by norm_num)⟩

/- ### C7 -/

/-- C7: for every `tiles_per_axis ≥ 1` the computed maximum zoom equals
`ceil(log2 tiles_per_axis)` (stated against the real-valued logarithm that
Python's `math.ceil(math.log2(...))` computes), and in particular
`tiles_per_axis = 130` gives `max_zoom = 8`. -/
theorem C7_max_zoom_is_ceil_log2 (tpa : ℕ) (h : 1 ≤ tpa) :
    (calculate_max_zoom tpa : ℤ) = ⌈Real.logb 2 (tpa : ℝ)⌉ ∧
    calculate_max_zoom 130 = 8 := by
  constructor
  · have h1 : Real.logb 2 (tpa : ℝ) = Real.logb ((2 : ℕ) : ℝ) (tpa : ℝ) := by norm_num
    rw [h1, Real.ceil_logb_natCast (by positivity), Int.clog_natCast]
    rfl
  · exact clog2_130

/-- C7 witness: the theorem instantiated at `tiles_per_axis = 130`. -/
theorem C7_max_zoom_is_ceil_log2_witness :
    1 ≤ 130 ∧
    ((calculate_max_zoom 130 : ℤ) = ⌈Real.logb 2 ((130 : ℕ) : ℝ)⌉ ∧
      calculate_max_zoom 130 = 8) :=
  ⟨by norm_num, C7_max_zoom_is_ceil_log2 130 (by norm_num)⟩

/- ### C9 -/

/-- C9: the metadata emits one entry per zoom `0 .. max_zoom` with
`tilesPerAxis = max(1, tpa // 2^z)` and `totalTiles` its square, while the
pyramid builder only emits tiles at levels with `tpa // 2^z ≥ 1`; for every
`tiles_per_axis ≥ 1` that is not a power of two (equivalently
`tpa < 2 ^ max_zoom`, see `lt_pow_clog_iff_not_pow`), the metadata entry at
`z = max_zoom` reports one tile while the generator emits zero tiles
there. -/
theorem C9_metadata_phantom_top_level (tpa mpt : ℕ) (h1 : 1 ≤ tpa)
    (h2 : tpa < 2 ^ calculate_max_zoom tpa) :
    (metadata_zoom_levels tpa mpt).length = calculate_max_zoom tpa + 1 ∧
    (∀ e ∈ metadata_zoom_levels tpa mpt,
      e.2.1 = max 1 (tpa / 2 ^ e.1) ∧ e.2.2.1 = e.2.1 * e.2.1) ∧
    (∀ z, zoom_level_tile_count tpa z ≠ 0 → 1 ≤ tiles_this_level tpa z) ∧
    (calculate_max_zoom tpa, 1, 1, mpt * 2 ^ calculate_max_zoom tpa) ∈
      metadata_zoom_levels tpa mpt ∧
    zoom_level_tile_count tpa (calculate_max_zoom tpa) = 0 := by
  have hzero : tpa / 2 ^ calculate_max_zoom tpa = 0 := Nat.div_eq_of_lt h2
  have hmeta1 : metadata_tiles_at tpa (calculate_max_zoom tpa) = 1 := by
    rw [metadata_tiles_at, hzero]
    omega
  refine ⟨by simp [metadata_zoom_levels], ?_, ?_, ?_, ?_⟩
  · intro e he
    rw [metadata_zoom_levels, List.mem_map] at he
    obtain ⟨z, _, rfl⟩ := he
    exact ⟨rfl, rfl⟩
  · intro z hz
    rw [zoom_level_tile_count] at hz
    by_cases hlt : tiles_this_level tpa z < 1
    · simp [hlt] at hz
    · omega
  · rw [metadata_zoom_levels, List.mem_map]
    refine ⟨calculate_max_zoom tpa, List.mem_range.mpr (Nat.lt_succ_self _), ?_⟩
    rw [hmeta1, metadata_total_at, hmeta1]
  · rw [zoom_level_tile_count, if_pos]
    rw [tiles_this_level, hzero]
    norm_num

/-- C9 witness: the theorem instantiated at `tiles_per_axis = 130` (which is
not a power of two: `130 < 2 ^ max_zoom = 256`). -/
theorem C9_metadata_phantom_top_level_witness :
    (1 ≤ 130 ∧ 130 < 2 ^ calculate_max_zoom 130) ∧
    ((metadata_zoom_levels 130 100).length = calculate_max_zoom 130 + 1 ∧
      (∀ e ∈ metadata_zoom_levels 130 100,
        e.2.1 = max 1 (130 / 2 ^ e.1) ∧ e.2.2.1 = e.2.1 * e.2.1) ∧
      (∀ z, zoom_level_tile_count 130 z ≠ 0 → 1 ≤ tiles_this_level 130 z) ∧
      (calculate_max_zoom 130, 1, 1, 100 * 2 ^ calculate_max_zoom 130) ∈
        metadata_zoom_levels 130 100 ∧
      zoom_level_tile_count 130 (calculate_max_zoom 130) = 0) := by
  have hlt : (130 : ℕ) < 2 ^ calculate_max_zoom 130 := by
    rw [show calculate_max_zoom 130 = 8 from clog2_130]
    norm_num
  exact ⟨⟨by norm_num, hlt⟩, C9_metadata_phantom_top_level 130 100 (by norm_num) hlt⟩

/- ### C10 -/

/-- C10: constructing the generator requires `tiles_per_axis ≥ 1`: when
`meters_per_tile > map_size_m` the floor division yields 0 and the
constructor fails with the math domain error from `log2(0)`, and whenever
`tiles_per_axis ≥ 1` construction succeeds with the derived fields set. -/
theorem C10_init_requires_positive_grid (km ts mpt : ℕ) (h : 1 ≤ mpt) :
    (map_size_m km < mpt → init km ts mpt = Except.error "math domain error") ∧
    (1 ≤ tiles_per_axis (map_size_m km) mpt →
      init km ts mpt = Except.ok ⟨km, ts, mpt, tiles_per_axis (map_size_m km) mpt,
        calculate_max_zoom (tiles_per_axis (map_size_m km) mpt)⟩) := by
  constructor
  · intro hlt
    have hzero : tiles_per_axis (map_size_m km) mpt = 0 := Nat.div_eq_of_lt hlt
    unfold init
    rw [if_neg (show ¬ mpt = 0 by omega), if_pos hzero]
  · intro hpos
    unfold init
    rw [if_neg (show ¬ mpt = 0 by omega),
      if_neg (show ¬ tiles_per_axis (map_size_m km) mpt = 0 by omega)]

/-- C10 witness: the reference configuration (13 km map, 542 px tiles,
100 m per tile) constructs successfully with `tiles_per_axis = 130`. -/
theorem C10_init_requires_positive_grid_witness :
    1 ≤ 100 ∧
    ((map_size_m 13 < 100 → init 13 542 100 = Except.error "math domain error") ∧
      (1 ≤ tiles_per_axis (map_size_m 13) 100 →
        init 13 542 100 = Except.ok ⟨13, 542, 100, tiles_per_axis (map_size_m 13) 100,
          calculate_max_zoom (tiles_per_axis (map_size_m 13) 100)⟩)) :=
  ⟨by norm_num, C10_init_requires_positive_grid 13 542 100 (by norm_num)⟩

/- ### C4 -/

/-- C4: for every zoom-level cell, every presence pattern of the four source
tiles and every pixel of quadrant `(dx, dy)`, the composed tile is defined
(no error path exists): the pixel shows the downsampled source tile
`(2x+dx, 2y+dy)` placed at `(dx*half, dy*half)` when that tile exists, and
stays blank (colour 0) when it is absent. -/
theorem C4_missing_quadrant_tolerated (n x y : ℕ) (src : ℕ → ℕ → Option Img)
    (dx dy : ℕ) (hdx : dx < 2) (hdy : dy < 2) (i j : ℕ)
    (hi : dx * (n / 2) ≤ i ∧ i < dx * (n / 2) + n / 2)
    (hj : dy * (n / 2) ≤ j ∧ j < dy * (n / 2) + n / 2) :
    composeZoomTile n src x y i j =
      (match src (2 * x + dx) (2 * y + dy) with
        | none => 0
        | some t => resizeHalf t (i - dx * (n / 2)) (j - dy * (n / 2))) :=
  composeZoomTile_pixel n x y src dx dy hdx hdy i j hi hj

/-- C4 witness: a 2×2 block (`threeQuadrantSrc`) with the `(1,1)` source tile
absent still composes (tile size 4, half size 2); the pixel `(2,2)` of the
missing quadrant is blank while pixel `(1,1)` of quadrant `(0,0)` shows the
downsampled present tile. -/
theorem C4_missing_quadrant_tolerated_witness :
    ((1 : ℕ) < 2 ∧
      (1 * (4 / 2) ≤ 2 ∧ 2 < 1 * (4 / 2) + 4 / 2)) ∧
    composeZoomTile 4 threeQuadrantSrc 0 0 2 2 =
      (match threeQuadrantSrc (2 * 0 + 1) (2 * 0 + 1) with
        | none => 0
        | some t => resizeHalf t (2 - 1 * (4 / 2)) (2 - 1 * (4 / 2))) :=
  ⟨⟨by norm_num, by norm_num⟩,
    C4_missing_quadrant_tolerated 4 0 0 threeQuadrantSrc 1 1 (by norm_num)
      (by norm_num) 2 2 (by norm_num) (by norm_num)⟩

/- ### C5 -/

/-- C5 counterexample: with the odd tile size 3 (`half = 1`), composing four
identical solid tiles of colour 5 leaves the seam pixel `(2,2)` blank
(colour 0), so the result is not the solid colour 5 — the claim fails for
odd `tile_size_px`. -/
theorem C5_odd_size_counterexample :
    composeZoomTile 3 (fun _ _ => some (solidImg 5)) 0 0 2 2 = 0 ∧
    (0 : ℕ) ≠ 5 := by
  constructor
  · rfl
  · decide

/-- C5 (amended): for every colour and every even `tile_size_px`, composing a
2×2 block of four identical solid-colour tiles yields a solid tile of the
same colour on every pixel — the four half-size quadrants tile the canvas
exactly.  (For odd sizes the truncated `half = n // 2` leaves a blank 1 px
seam, see the counterexample.) -/
theorem C5_solid_color_idempotent (n c x y i j : ℕ) (heven : n % 2 = 0)
    (hi : i < n) (hj : j < n) :
    composeZoomTile n (fun _ _ => some (solidImg c)) x y i j = c := by
  rcases Nat.lt_or_ge i (n / 2) with hi0 | hi1 <;>
    rcases Nat.lt_or_ge j (n / 2) with hj0 | hj1
  · rw [composeZoomTile_pixel n x y _ 0 0 (by norm_num) (by norm_num) i j
      (by omega) (by omega)]
    rfl
  · rw [composeZoomTile_pixel n x y _ 0 1 (by norm_num) (by norm_num) i j
      (by omega) (by omega)]
    rfl
  · rw [composeZoomTile_pixel n x y _ 1 0 (by norm_num) (by norm_num) i j
      (by omega) (by omega)]
    rfl
  · rw [composeZoomTile_pixel n x y _ 1 1 (by norm_num) (by norm_num) i j
      (by omega) (by omega)]
    rfl

/-- C5 witness: tile size 4, colour 7, pixel `(1, 1)`. -/
theorem C5_solid_color_idempotent_witness :
    ((4 : ℕ) % 2 = 0 ∧ (1 : ℕ) < 4) ∧
    composeZoomTile 4 (fun _ _ => some (solidImg 7)) 0 0 1 1 = 7 :=
  ⟨⟨by norm_num, by norm_num⟩,
    C5_solid_color_idempotent 4 7 0 0 1 1 (by norm_num) (by norm_num) (by norm_num)⟩

/- ### C3 -/

/-- C3: for every grid cell, the source's crop box coincides with the spec's
clamped window whenever that window has positive area, and a tile is emitted
exactly on positive area: positive area ⇒ crop and resample succeed and the
tile is saved; an empty window ⇒ no tile is saved for the cell (the per-tile
`except` swallows the failure and the run continues). -/
theorem C3_crop_window_clamped (w h s x y : ℕ) :
    (posArea (spec_window w h s x y) →
      crop_box w h s x y = spec_window w h s x y ∧
      emits_tile w h s x y = true) ∧
    (¬ posArea (spec_window w h s x y) → emits_tile w h s x y = false) := by
  unfold emits_tile posArea spec_window crop_box
  dsimp only
  simp only [add_one_mul]
  constructor
  · intro hpos
    obtain ⟨h1, h2⟩ := hpos
    constructor
    · rw [CropBox.mk.injEq]
      refine ⟨by omega, by omega, by omega, by omega⟩
    · rw [if_neg (by omega), if_pos (by omega)]
  · intro hneg
    rw [Classical.not_and_iff_or_not_not] at hneg
    by_cases hinv : min (x * s + s) w < max 0 (x * s) ∨ min (y * s + s) h < max 0 (y * s)
    · rw [if_pos hinv]
    · rw [if_neg hinv, if_neg (by omega)]

/-- C3 witness: the reference scenario (13000 × 13000 px source, 100 px
window) at cell `(0, 0)`: the window has positive area, the crop box equals
the clamped window and the tile is emitted. -/
theorem C3_crop_window_clamped_witness :
    posArea (spec_window 13000 13000 100 0 0) ∧
    (crop_box 13000 13000 100 0 0 = spec_window 13000 13000 100 0 0 ∧
      emits_tile 13000 13000 100 0 0 = true) :=
  ⟨by decide, (C3_crop_window_clamped 13000 13000 100 0 0).1 (by decide)⟩

/- ### C8 -/

/-- C8: when the source image is missing (or fails to load), the run aborts
with an error and exit code 1 before any write: no level-0 tile, no pyramid
tile, no metadata file and no Leaflet config file is written — the output
state is untouched on the fatal path. -/
theorem C8_fatal_path_atomic (g : GenState) :
    main_run none g = ([], 1) ∧
    generate_all_tiles_run none g = ([], Except.error "Source image not found") ∧
    (main_run none g).2 ≠ 0 ∧
    Write.metadataFile ∉ (generate_all_tiles_run none g).1 ∧
    ∀ zoom x y, Write.tile zoom x y ∉ (generate_all_tiles_run none g).1 := by
  refine ⟨rfl, rfl, ?_, by simp [generate_all_tiles_run, generate_base_tiles_run], ?_⟩
  · unfold main_run
    dsimp only
    omega
  · intro zoom x y
    simp [generate_all_tiles_run, generate_base_tiles_run]

end ReforgerTileGenerator
